import Mathlib

/-!
Verification development for the authentication and session-bootstrap flow of
the InvitroManager Streamlit application (src/app.py).

The Python source is shallowly embedded as pure Lean functions.  Effects are
made explicit:

* the Streamlit `st.session_state` authentication fields become the
  `SessionState` record, threaded through the functions that read or write it;
* database access is modelled by a `List UserRow` value for the `users` table,
  plus two explicit failure parameters per operation: `connOk : Bool`
  (whether `get_db_connection` succeeds; on failure the source surfaces an
  error and calls `st.stop()`) and `queryErr : Option String` (a database
  error raised while executing the query, i.e. a `psycopg2.Error` that is not
  the uniqueness violation, which is instead determined by the table
  contents);
* fatal outcomes (`st.stop()`, exceptions that no handler catches) are the
  `.error` case of `Except Fatal`;
* user-visible `st.error` / `st.success` / `st.warning` messages are modelled
  by the `UiMsg` inductive, one constructor per distinct message of the
  source, so that claims about which message is surfaced are claims about
  constructor identity.
-/

namespace InvitroApp

/-! ### Model of Python `str.encode("utf-8")`

Passwords are Python strings; `get_hashed_password` encodes them to UTF-8
bytes before hashing.  `utf8EncodeNat` is the standard UTF-8 encoding of a
single code point, written out arithmetically; `pyEncodeUtf8` encodes a whole
string.  `utf8DecodeOne` is a proof device used to show the encoding is
injective. -/

def utf8EncodeNat (n : Nat) : List Nat :=
  if n < 128 then [n]
  else if n < 2048 then [192 + n / 64, 128 + n % 64]
  else if n < 65536 then [224 + n / 4096, 128 + (n / 64) % 64, 128 + n % 64]
  else [240 + n / 262144, 128 + (n / 4096) % 64, 128 + (n / 64) % 64, 128 + n % 64]

def utf8Bytes : List Char → List Nat
  | [] => []
  | c :: cs => utf8EncodeNat c.toNat ++ utf8Bytes cs

def pyEncodeUtf8 (s : String) : List Nat :=
  utf8Bytes s.data

def utf8DecodeOne : List Nat → Option (Nat × List Nat)
  | [] => none
  | b0 :: rest =>
    if b0 < 128 then some (b0, rest)
    else if b0 < 224 then
      match rest with
      | b1 :: r => some ((b0 - 192) * 64 + (b1 - 128), r)
      | [] => none
    else if b0 < 240 then
      match rest with
      | b1 :: b2 :: r => some ((b0 - 224) * 4096 + (b1 - 128) * 64 + (b2 - 128), r)
      | _ => none
    else
      match rest with
      | b1 :: b2 :: b3 :: r =>
        some ((b0 - 240) * 262144 + (b1 - 128) * 4096 + (b2 - 128) * 64 + (b3 - 128), r)
      | _ => none

theorem utf8EncodeNat_ne_nil (n : Nat) : utf8EncodeNat n ≠ [] := by
  unfold utf8EncodeNat
  split
  · simp
  · split
    · simp
    · split <;> simp

theorem utf8DecodeOne_encode_append (n : Nat) (r : List Nat) :
    utf8DecodeOne (utf8EncodeNat n ++ r) = some (n, r) := by
  unfold utf8EncodeNat
  by_cases h1 : n < 128
  · simp [h1, utf8DecodeOne]
  · by_cases h2 : n < 2048
    · have hb1 : ¬ (192 + n / 64 < 128) := by omega
      have hb2 : 192 + n / 64 < 224 := by omega
      simp [h1, h2, utf8DecodeOne, hb1, hb2]
      omega
    · by_cases h3 : n < 65536
      · have hb1 : ¬ (224 + n / 4096 < 128) := by omega
        have hb2 : ¬ (224 + n / 4096 < 224) := by omega
        have hb3 : 224 + n / 4096 < 240 := by omega
        simp [h1, h2, h3, utf8DecodeOne, hb1, hb2, hb3]
        omega
      · have hb1 : ¬ (240 + n / 262144 < 128) := by omega
        have hb2 : ¬ (240 + n / 262144 < 224) := by omega
        have hb3 : ¬ (240 + n / 262144 < 240) := by omega
        simp [h1, h2, h3, utf8DecodeOne, hb1, hb2, hb3]
        omega

theorem char_eq_of_toNat_eq {a b : Char} (h : a.toNat = b.toNat) : a = b :=
  Char.ext (UInt32.ext h)

theorem utf8Bytes_inj : ∀ {l1 l2 : List Char}, utf8Bytes l1 = utf8Bytes l2 → l1 = l2 := by
  intro l1
  induction l1 with
  | nil =>
    intro l2 h
    cases l2 with
    | nil => rfl
    | cons c t =>
      exfalso
      have h' : utf8EncodeNat c.toNat ++ utf8Bytes t = [] := by
        simpa [utf8Bytes] using h.symm
      rcases List.append_eq_nil.mp h' with ⟨h1, _⟩
      exact utf8EncodeNat_ne_nil c.toNat h1
  | cons c t ih =>
    intro l2 h
    cases l2 with
    | nil =>
      exfalso
      have h' : utf8EncodeNat c.toNat ++ utf8Bytes t = [] := by
        simpa [utf8Bytes] using h
      rcases List.append_eq_nil.mp h' with ⟨h1, _⟩
      exact utf8EncodeNat_ne_nil c.toNat h1
    | cons c2 t2 =>
      have hd := congrArg utf8DecodeOne h
      have e1 : utf8Bytes (c :: t) = utf8EncodeNat c.toNat ++ utf8Bytes t := rfl
      have e2 : utf8Bytes (c2 :: t2) = utf8EncodeNat c2.toNat ++ utf8Bytes t2 := rfl
      rw [e1, e2, utf8DecodeOne_encode_append, utf8DecodeOne_encode_append] at hd
      have hpair := Option.some.inj hd
      have hn : c.toNat = c2.toNat := congrArg Prod.fst hpair
      have ht : utf8Bytes t = utf8Bytes t2 := congrArg Prod.snd hpair
      rw [char_eq_of_toNat_eq hn, ih ht]

theorem pyEncodeUtf8_inj {s1 s2 : String} (h : pyEncodeUtf8 s1 = pyEncodeUtf8 s2) :
    s1 = s2 := by
  cases s1 with
  | mk d1 =>
    cases s2 with
    | mk d2 =>
      have : d1 = d2 := utf8Bytes_inj h
      rw [this]

theorem char_toNat_lt (c : Char) : c.toNat < 1114112 := by
  have h := c.valid
  show c.val.toNat < 1114112
  rcases h with h | h
  · omega
  · omega

theorem utf8EncodeNat_lt_256 (n : Nat) (hn : n < 1114112) :
    ∀ b ∈ utf8EncodeNat n, b < 256 := by
  intro b hb
  unfold utf8EncodeNat at hb
  by_cases h1 : n < 128
  · simp [h1] at hb; omega
  · by_cases h2 : n < 2048
    · simp [h1, h2] at hb; omega
    · by_cases h3 : n < 65536
      · simp [h1, h2, h3] at hb; omega
      · simp [h1, h2, h3] at hb; omega

theorem utf8Bytes_lt_256 (l : List Char) : ∀ b ∈ utf8Bytes l, b < 256 := by
  induction l with
  | nil => intro b hb; simp [utf8Bytes] at hb
  | cons c cs ih =>
    intro b hb
    simp only [utf8Bytes, List.mem_append] at hb
    rcases hb with hb | hb
    · exact utf8EncodeNat_lt_256 c.toNat (char_toNat_lt c) b hb
    · exact ih b hb

theorem pyEncodeUtf8_lt_256 (s : String) : ∀ b ∈ pyEncodeUtf8 s, b < 256 :=
  utf8Bytes_lt_256 s.data

/-! ### Model of the bcrypt library

Modelled from the spec: the `bcrypt` package imported by src/app.py is an
external dependency whose code is not part of this repository.  The spec
(section 4.1) gives its contract: a salted one-way hash such that
verification of the hashing password succeeds, verification of any other
password fails, and two calls with different salts may return different byte
sequences.  The model keeps the observable structure of a bcrypt hash that
the claims depend on: the output is a byte list beginning with the ASCII
dollar sign 36 (the `$2b$` marker), it embeds the salt (so hashing the same
password with two salts gives two different byte lists), and `checkpw`
re-derives the digest from the password and the embedded salt.  The one-way
digest itself is idealised as collision-free. -/

def bcrypt_hashpw (pw : List Nat) (salt : Nat) : List Nat :=
  36 :: 50 :: 98 :: 36 :: (salt % 256) :: 36 :: pw

def bcrypt_checkpw (pw : List Nat) (hashed : List Nat) : Bool :=
  match hashed with
  | 36 :: 50 :: 98 :: 36 :: _ :: 36 :: d => d == pw
  | _ => false

/-- src/app.py lines 26-30: hash the UTF-8 encoding of the password with a
fresh salt; the salt is an explicit parameter of the embedding. -/
def get_hashed_password (password : String) (salt : Nat) : List Nat :=
  bcrypt_hashpw (pyEncodeUtf8 password) salt

/-- src/app.py lines 32-35: verify the entered password against the stored
hash; both sides are byte lists, the password being UTF-8 encoded first. -/
def check_hashed_password (password : String) (hashed_password : List Nat) : Bool :=
  bcrypt_checkpw (pyEncodeUtf8 password) hashed_password

/-! ### Model of the stored hash value and its normalisation

The `hashed_password` column is BYTEA, but (per the comment at src/app.py
lines 78-87) psycopg2 sometimes hands the value back as a text string rather
than raw bytes.  `PgValue` is a value as the driver returns it: either raw
bytes or a text string, the latter given as its list of code points.
`driverRead` enumerates the re-encodings the source anticipates: raw bytes,
a hex rendering of the bytes, or a latin1 decoding of the bytes. -/

inductive PgValue
  | raw (b : List Nat)
  | text (s : List Nat)
deriving DecidableEq, Repr

inductive StorageEncoding
  | rawBytes
  | hexText
  | latin1Text
deriving DecidableEq, Repr

def hexDigitChar (n : Nat) : Nat :=
  if n < 10 then 48 + n else 87 + n

def bytesToHexText : List Nat → List Nat
  | [] => []
  | b :: bs => hexDigitChar (b / 16) :: hexDigitChar (b % 16) :: bytesToHexText bs

def driverRead : StorageEncoding → List Nat → PgValue
  | .rawBytes, b => .raw b
  | .hexText, b => .text (bytesToHexText b)
  | .latin1Text, b => .text b

def hexDigitVal (c : Nat) : Option Nat :=
  if 48 ≤ c ∧ c ≤ 57 then some (c - 48)
  else if 97 ≤ c ∧ c ≤ 102 then some (c - 87)
  else if 65 ≤ c ∧ c ≤ 70 then some (c - 55)
  else none

/-- Model of Python `bytes.fromhex` restricted to inputs without spaces (no
input in this development contains a space): an even-length string of hex
digits parses to bytes, anything else raises ValueError (`none`). -/
def bytesFromHex : List Nat → Option (List Nat)
  | [] => some []
  | [_] => none
  | c1 :: c2 :: rest =>
    match hexDigitVal c1, hexDigitVal c2, bytesFromHex rest with
    | some hi, some lo, some bs => some ((16 * hi + lo) :: bs)
    | _, _, _ => none

/-- Model of Python `str.encode("latin1")`: each code point below 256 becomes
the byte of the same value; any higher code point raises (`none`). -/
def latin1Encode (s : List Nat) : Option (List Nat) :=
  if s.all (· < 256) then some s else none

/-- src/app.py lines 81-87, the FIX CRITICO block: when the driver returns a
string, first try `bytes.fromhex`, and on ValueError fall back to
`.encode("latin1")`; raw bytes pass through unchanged. -/
def normalizeHashValue : PgValue → Option (List Nat)
  | .raw b => some b
  | .text s =>
    match bytesFromHex s with
    | some b => some b
    | none => latin1Encode s

/-! ### Model of Python `str.strip()`

Python `strip()` with no argument removes leading and trailing whitespace.
The model removes the ASCII whitespace characters (tab, line feed, vertical
tab, form feed, carriage return, space), which covers every input of this
application; it is written by structural recursion so that it evaluates. -/

def isPySpace (c : Char) : Bool :=
  c.toNat == 9 || c.toNat == 10 || c.toNat == 11 || c.toNat == 12 ||
  c.toNat == 13 || c.toNat == 32

def dropLeadingSpaces : List Char → List Char
  | [] => []
  | c :: cs => if isPySpace c then dropLeadingSpaces cs else c :: cs

def dropTrailingSpaces (l : List Char) : List Char :=
  (dropLeadingSpaces l.reverse).reverse

def pyStrip (s : String) : String :=
  ⟨dropTrailingSpaces (dropLeadingSpaces s.data)⟩

/-! ### Data model: users table, session state, messages, fatal outcomes -/

/-- One row of the `users` table: username (unique), hashed_password (BYTEA,
as handed back by the driver), is_admin. -/
structure UserRow where
  username : String
  hashed_password : PgValue
  is_admin : Bool
deriving DecidableEq, Repr

/-- The three authentication fields of `st.session_state`
(src/app.py lines 18-23). -/
structure SessionState where
  authenticated : Bool
  username : Option String
  is_admin : Bool
deriving DecidableEq, Repr

/-- Initial session values (src/app.py lines 18-23): unauthenticated, no
username, not admin. -/
def initSession : SessionState :=
  { authenticated := false, username := none, is_admin := false }

/-- User-visible messages that the authentication flow surfaces, one
constructor per distinct `st.error` / `st.success` / `st.warning` call in the
source. -/
inductive UiMsg
  | errDBConnection
  | errCheckUsers (e : String)
  | errEmptyUserPass
  | errUserExists (username : String)
  | errDBSave (e : String)
  | successUserCreated (username : String) (is_admin : Bool)
  | errInvalidCredentials
  | errFillBothFields
  | errFillUserAndPass
  | warnNoUsers
deriving DecidableEq, Repr

/-- A fatal end of the current request: either `st.stop()` after surfacing a
message (how `get_db_connection` reacts to configuration and connection
failures), or an exception that no handler in the source catches. -/
inductive Fatal
  | stopped (msg : UiMsg)
  | uncaughtError (e : String)
deriving DecidableEq, Repr

/-! ### Embedded operations from src/app.py -/

/-- src/app.py lines 63-93 `get_user_from_db`: connect, SELECT the row by
exact username match, and normalise the returned hash value.  The function
has no `except psycopg2.Error` clause, so a query error propagates as an
uncaught exception; a connection failure stops inside `get_db_connection`;
a latin1 failure during normalisation is an uncaught UnicodeEncodeError. -/
def get_user_from_db (connOk : Bool) (queryErr : Option String) (db : List UserRow)
    (username : String) : Except Fatal (Option (List Nat × Bool)) :=
  if !connOk then .error (.stopped .errDBConnection)
  else
    match queryErr with
    | some e => .error (.uncaughtError e)
    | none =>
      match db.find? (fun r => r.username == username) with
      | none => .ok none
      | some r =>
        match normalizeHashValue r.hashed_password with
        | some b => .ok (some (b, r.is_admin))
        | none => .error (.uncaughtError "UnicodeEncodeError")

/-- src/app.py lines 95-111 `check_for_any_user_in_db`: SELECT 1 FROM users
LIMIT 1.  A connection failure stops inside `get_db_connection`; a query
error is caught by `except psycopg2.Error`, surfaced with `st.error`, and
the function returns False, i.e. it reports that no user exists. -/
def check_for_any_user_in_db (connOk : Bool) (queryErr : Option String)
    (db : List UserRow) : Except Fatal (Bool × Option UiMsg) :=
  if !connOk then .error (.stopped .errDBConnection)
  else
    match queryErr with
    | some e => .ok (false, some (.errCheckUsers e))
    | none => .ok (!db.isEmpty, none)

/-- src/app.py lines 113-145 `add_user_to_db`: reject empty username or
password before any store access; otherwise connect, hash, INSERT, commit.
The uniqueness constraint on `username` raises UniqueViolation when the
username exists (caught: error message, return False); any other
`psycopg2.Error` during the insert is caught likewise (error message,
return False).  The salt drawn by `bcrypt.gensalt()` is an explicit
parameter.  The returned triple is (return value, users table after the
call, surfaced message). -/
def add_user_to_db (connOk : Bool) (queryErr : Option String) (db : List UserRow)
    (username password : String) (is_admin : Bool) (salt : Nat) :
    Except Fatal (Bool × List UserRow × Option UiMsg) :=
  if username = "" ∨ password = "" then
    .ok (false, db, some .errEmptyUserPass)
  else if !connOk then .error (.stopped .errDBConnection)
  else if db.any (fun r => r.username == username) then
    .ok (false, db, some (.errUserExists username))
  else
    match queryErr with
    | some e => .ok (false, db, some (.errDBSave e))
    | none =>
      .ok (true,
           db ++ [{ username := username,
                    hashed_password := .raw (get_hashed_password password salt),
                    is_admin := is_admin }],
           some (.successUserCreated username is_admin))

/-- src/app.py lines 155-173 `password_entered`: strip the submitted
username, look it up, and verify the submitted password (not stripped)
against the normalised hash.  On success set the three session fields and
return True; on not-found or verification failure set
`authenticated := false` (the other fields are left as they were) and
return False. -/
def password_entered (connOk : Bool) (queryErr : Option String) (db : List UserRow)
    (s : SessionState) (username_input password_input : String) :
    Except Fatal (SessionState × Bool) :=
  let username := pyStrip username_input
  match get_user_from_db connOk queryErr db username with
  | .error f => .error f
  | .ok (some (hashed_from_db, adm)) =>
    if check_hashed_password password_input hashed_from_db then
      .ok ({ s with authenticated := true, username := some username, is_admin := adm },
           true)
    else
      .ok ({ s with authenticated := false }, false)
  | .ok none => .ok ({ s with authenticated := false }, false)

/-- src/app.py lines 200-209, the login form: run `password_entered`, then
show the single generic invalid-credentials error exactly when the session
is unauthenticated and the (unstripped) username input is non-empty.
Returns the session after the attempt and the surfaced message. -/
def login_form_result (connOk : Bool) (queryErr : Option String) (db : List UserRow)
    (s : SessionState) (username_input password_input : String) :
    Except Fatal (SessionState × Option UiMsg) :=
  match password_entered connOk queryErr db s username_input password_input with
  | .error f => .error f
  | .ok (s2, _) =>
    .ok (s2,
         if s2.authenticated = false ∧ username_input ≠ "" then
           some .errInvalidCredentials
         else none)

/-- The three states the controller can render on one evaluation. -/
inductive ControllerState
  | uninitializedSetup
  | loginForm
  | authenticatedApp
deriving DecidableEq, Repr

/-- src/app.py lines 149-215 `check_password`, the branching skeleton: an
authenticated session yields the application; otherwise the existence check
decides between the first-run setup branch (shown when it reports that no
user exists) and the plain login form. -/
def check_password_state (connOk : Bool) (queryErr : Option String)
    (db : List UserRow) (s : SessionState) : Except Fatal ControllerState :=
  if s.authenticated then .ok .authenticatedApp
  else
    match check_for_any_user_in_db connOk queryErr db with
    | .error f => .error f
    | .ok (users_exist, _) =>
      .ok (if users_exist then .loginForm else .uninitializedSetup)

/-- src/app.py lines 184-196, the first-run setup form: both inputs are
stripped at the text_input call; on a submission with both fields non-empty,
create the user with `is_admin := true`; otherwise surface the
fill-both-fields error.  Returns the users table after the submission and
the surfaced message. -/
def initial_admin_setup_submit (connOk : Bool) (queryErr : Option String)
    (db : List UserRow) (admin_user_input admin_password_input : String)
    (salt : Nat) : Except Fatal (List UserRow × Option UiMsg) :=
  let admin_user := pyStrip admin_user_input
  let admin_password := pyStrip admin_password_input
  if admin_user ≠ "" ∧ admin_password ≠ "" then
    match add_user_to_db connOk queryErr db admin_user admin_password true salt with
    | .error f => .error f
    | .ok (_, db2, msg) => .ok (db2, msg)
  else .ok (db, some .errFillBothFields)

/-- src/app.py lines 627-638, the admin create-user form: both inputs are
stripped at the text_input call; on a submission with both fields non-empty,
create the user with the checkbox value as is_admin; otherwise surface the
fill-user-and-password error. -/
def form_add_user_submit (connOk : Bool) (queryErr : Option String)
    (db : List UserRow) (username_input password_input : String)
    (is_admin_check : Bool) (salt : Nat) :
    Except Fatal (List UserRow × Option UiMsg) :=
  let new_username := pyStrip username_input
  let new_password := pyStrip password_input
  if new_username ≠ "" ∧ new_password ≠ "" then
    match add_user_to_db connOk queryErr db new_username new_password is_admin_check salt with
    | .error f => .error f
    | .ok (_, db2, msg) => .ok (db2, msg)
  else .ok (db, some .errFillUserAndPass)

/-- src/app.py lines 355-359 `logout`: reset the three session fields to
their initial values. -/
def logout (s : SessionState) : SessionState :=
  { s with authenticated := false, username := none, is_admin := false }

/-! ### Supporting lemmas -/

theorem hexDigitVal_hexDigitChar (n : Nat) (h : n < 16) :
    hexDigitVal (hexDigitChar n) = some n := by
  interval_cases n <;> rfl

theorem bytesFromHex_bytesToHexText (b : List Nat) (hb : ∀ x ∈ b, x < 256) :
    bytesFromHex (bytesToHexText b) = some b := by
  induction b with
  | nil => rfl
  | cons x bs ih =>
    have hx : x < 256 := hb x (List.mem_cons_self x bs)
    have hbs : ∀ y ∈ bs, y < 256 := fun y hy => hb y (List.mem_cons_of_mem x hy)
    simp only [bytesToHexText, bytesFromHex,
      hexDigitVal_hexDigitChar (x / 16) (by omega),
      hexDigitVal_hexDigitChar (x % 16) (by omega), ih hbs]
    have hxe : 16 * (x / 16) + x % 16 = x := by omega
    rw [hxe]

theorem get_hashed_password_lt_256 (P : String) (salt : Nat) :
    ∀ x ∈ get_hashed_password P salt, x < 256 := by
  intro x hx
  unfold get_hashed_password bcrypt_hashpw at hx
  simp only [List.mem_cons] at hx
  rcases hx with h | h | h | h | h | h | h
  · omega
  · omega
  · omega
  · omega
  · have : salt % 256 < 256 := Nat.mod_lt _ (by omega)
    omega
  · omega
  · exact pyEncodeUtf8_lt_256 P x h

theorem bytesFromHex_hash (P : String) (salt : Nat) :
    bytesFromHex (get_hashed_password P salt) = none := by
  unfold get_hashed_password bcrypt_hashpw
  simp [bytesFromHex, hexDigitVal]

theorem latin1Encode_hash (P : String) (salt : Nat) :
    latin1Encode (get_hashed_password P salt) = some (get_hashed_password P salt) := by
  unfold latin1Encode
  rw [if_pos]
  simp only [List.all_eq_true, decide_eq_true_eq]
  exact fun x hx => get_hashed_password_lt_256 P salt x hx

theorem normalizeHashValue_driverRead (P : String) (salt : Nat) (enc : StorageEncoding) :
    normalizeHashValue (driverRead enc (get_hashed_password P salt))
      = some (get_hashed_password P salt) := by
  cases enc with
  | rawBytes => rfl
  | hexText =>
    simp only [driverRead, normalizeHashValue,
      bytesFromHex_bytesToHexText _ (get_hashed_password_lt_256 P salt)]
  | latin1Text =>
    simp only [driverRead, normalizeHashValue, bytesFromHex_hash, latin1Encode_hash]

theorem check_hashed_password_self (P : String) (salt : Nat) :
    check_hashed_password P (get_hashed_password P salt) = true := by
  unfold check_hashed_password get_hashed_password bcrypt_checkpw bcrypt_hashpw
  simp

theorem check_hashed_password_other (P1 P2 : String) (salt : Nat) (h : P1 ≠ P2) :
    check_hashed_password P1 (get_hashed_password P2 salt) = false := by
  have hne : pyEncodeUtf8 P2 ≠ pyEncodeUtf8 P1 := fun he => h (pyEncodeUtf8_inj he).symm
  unfold check_hashed_password get_hashed_password bcrypt_checkpw bcrypt_hashpw
  simp [hne]

/-! ### Claims -/

/-- C1 counterexample: with one user present and a query error during the
existence check (`connOk = true`, a `psycopg2.Error` raised by the SELECT),
`check_for_any_user_in_db` does not fail the request: it returns `False`
(i.e. reports that no user exists), and the controller consequently falls
through to the UNINITIALIZED first-run setup branch.  This refutes the claim
that a failed exists_any_user query is never treated as no-users-exist. -/
theorem C1_counterexample :
    check_for_any_user_in_db true (some "permission denied")
        [{ username := "admin", hashed_password := .raw [], is_admin := true }]
      = .ok (false, some (.errCheckUsers "permission denied"))
    ∧ check_password_state true (some "permission denied")
        [{ username := "admin", hashed_password := .raw [], is_admin := true }]
        initSession
      = .ok .uninitializedSetup := ⟨rfl, rfl⟩

/-- C1 (amended): failures to establish a store connection are fatal to the
current request for every operation (surfaced, then `st.stop()`), and a
query error during `get_user_from_db` propagates as an uncaught exception;
but a query error during `check_for_any_user_in_db` is caught, surfaced as
an error message, and returned as `False`, so the controller treats it as
"no users exist" and falls through to the UNINITIALIZED setup branch; and a
failed INSERT in `add_user_to_db` is caught and returned as `False` — the
same boolean as the conflict and invalid-input outcomes, distinguished only
by the surfaced message. -/
theorem C1_amended_failure_semantics (db : List UserRow) (qe : Option String)
    (e u p : String) (a : Bool) (s : SessionState) (salt : Nat)
    (hu : u ≠ "") (hp : p ≠ "") (hs : s.authenticated = false) :
    check_for_any_user_in_db false qe db = .error (.stopped .errDBConnection)
    ∧ check_for_any_user_in_db true (some e) db = .ok (false, some (.errCheckUsers e))
    ∧ check_password_state true (some e) db s = .ok .uninitializedSetup
    ∧ get_user_from_db true (some e) db u = .error (.uncaughtError e)
    ∧ add_user_to_db false qe db u p a salt = .error (.stopped .errDBConnection)
    ∧ (db.all (fun r => !(r.username == u)) = true →
        add_user_to_db true (some e) db u p a salt
          = .ok (false, db, some (.errDBSave e))) := by
  refine ⟨rfl, rfl, ?_, rfl, ?_, ?_⟩
  · simp [check_password_state, hs, check_for_any_user_in_db]
  · simp [add_user_to_db, hu, hp]
  · intro hnodup
    have hany : db.any (fun r => r.username == u) = false := by
      simpa [List.any_eq_false, List.all_eq_true] using hnodup
    simp [add_user_to_db, hu, hp, hany]

theorem C1_amended_witness :
    check_for_any_user_in_db false none [] = .error (.stopped .errDBConnection)
    ∧ check_for_any_user_in_db true (some "boom") []
        = .ok (false, some (.errCheckUsers "boom"))
    ∧ check_password_state true (some "boom") [] initSession = .ok .uninitializedSetup
    ∧ get_user_from_db true (some "boom") [] "x" = .error (.uncaughtError "boom")
    ∧ add_user_to_db false none [] "x" "y" false 0 = .error (.stopped .errDBConnection)
    ∧ add_user_to_db true (some "boom") [] "x" "y" false 0
        = .ok (false, [], some (.errDBSave "boom")) := by
  have h := C1_amended_failure_semantics [] none "boom" "x" "y" false initSession 0
    (by decide) (by decide) rfl
  exact ⟨h.1, h.2.1, h.2.2.1, h.2.2.2.1, h.2.2.2.2.1, h.2.2.2.2.2 rfl⟩

/-- C2: for every password P and salt, the hash written by `add_user_to_db`
(raw bytes) still verifies after being read back by `get_user_from_db`
under every storage encoding the driver may apply (raw bytes, hex text,
latin1 text): the read path normalises the value back to the exact bytes
the hashing function produced, and verification of P against those bytes
succeeds. -/
theorem C2_hash_roundtrip (P : String) (salt : Nat) (enc : StorageEncoding)
    (U : String) (A : Bool) :
    get_user_from_db true none
        [{ username := U,
           hashed_password := driverRead enc (get_hashed_password P salt),
           is_admin := A }] U
      = .ok (some (get_hashed_password P salt, A))
    ∧ check_hashed_password P (get_hashed_password P salt) = true := by
  constructor
  · simp [get_user_from_db, List.find?, normalizeHashValue_driverRead]
  · exact check_hashed_password_self P salt

/-- C3: for every stored record (U, H, A) and login submission (U, P) whose
password verifies against H, `password_entered` sets the session to
authenticated = true, identity = U, and is_admin = A, and returns True. -/
theorem C3_login_success_sets_session (db : List UserRow) (U P : String)
    (H : List Nat) (A : Bool) (s : SessionState)
    (hstrip : pyStrip U = U)
    (hfind : db.find? (fun r => r.username == U)
      = some { username := U, hashed_password := .raw H, is_admin := A })
    (hver : check_hashed_password P H = true) :
    password_entered true none db s U P
      = .ok ({ s with authenticated := true, username := some U, is_admin := A },
             true) := by
  simp [password_entered, get_user_from_db, hstrip, hfind, normalizeHashValue, hver]

theorem C3_login_success_witness :
    password_entered true none
        [{ username := "bob",
           hashed_password := .raw (get_hashed_password "hunter2" 0),
           is_admin := false }]
        initSession "bob" "hunter2"
      = .ok ({ authenticated := true, username := some "bob", is_admin := false },
             true) :=
  C3_login_success_sets_session
    [{ username := "bob",
       hashed_password := .raw (get_hashed_password "hunter2" 0),
       is_admin := false }]
    "bob" "hunter2" (get_hashed_password "hunter2" 0) false initSession rfl rfl rfl

/-- C4: a login attempt for a username that is not in the store and a login
attempt for a stored username with a non-verifying password produce
identical observable results: in both runs the session stays
unauthenticated and the surfaced message is the single generic
invalid-credentials error. -/
theorem C4_failed_login_indistinguishable (db : List UserRow)
    (u1 p1 u2 p2 : String) (H : List Nat) (A : Bool)
    (h1 : db.find? (fun r => r.username == pyStrip u1) = none)
    (hne1 : u1 ≠ "")
    (h2 : db.find? (fun r => r.username == pyStrip u2)
      = some { username := pyStrip u2, hashed_password := .raw H, is_admin := A })
    (hver : check_hashed_password p2 H = false)
    (hne2 : u2 ≠ "") :
    login_form_result true none db initSession u1 p1
      = .ok (initSession, some .errInvalidCredentials)
    ∧ login_form_result true none db initSession u2 p2
      = .ok (initSession, some .errInvalidCredentials) := by
  constructor
  · simp [login_form_result, password_entered, get_user_from_db, h1, hne1, initSession]
  · simp [login_form_result, password_entered, get_user_from_db, h2,
      normalizeHashValue, hver, hne2, initSession]

theorem C4_failed_login_witness :
    login_form_result true none
        [{ username := "bob",
           hashed_password := .raw (get_hashed_password "hunter2" 0),
           is_admin := false }]
        initSession "carol" "x"
      = .ok (initSession, some .errInvalidCredentials)
    ∧ login_form_result true none
        [{ username := "bob",
           hashed_password := .raw (get_hashed_password "hunter2" 0),
           is_admin := false }]
        initSession "bob" "wrong"
      = .ok (initSession, some .errInvalidCredentials) :=
  C4_failed_login_indistinguishable
    [{ username := "bob",
       hashed_password := .raw (get_hashed_password "hunter2" 0),
       is_admin := false }]
    "carol" "x" "bob" "wrong" (get_hashed_password "hunter2" 0) false
    rfl (by decide) rfl rfl (by decide)

/-- C5: creating a username that already exists yields the conflict outcome
(return False with the user-exists message, not success), and the users
table — hence the original record, its stored hash, and its is_admin flag —
is unchanged by the failed call. -/
theorem C5_duplicate_create_conflict (db : List UserRow) (u p : String)
    (a : Bool) (salt : Nat) (qe : Option String)
    (hu : u ≠ "") (hp : p ≠ "")
    (hdup : db.any (fun r => r.username == u) = true) :
    add_user_to_db true qe db u p a salt
      = .ok (false, db, some (.errUserExists u)) := by
  simp [add_user_to_db, hu, hp, hdup]

theorem C5_duplicate_create_witness :
    add_user_to_db true none
        [{ username := "alice",
           hashed_password := .raw (get_hashed_password "pw" 0),
           is_admin := false }]
        "alice" "other" true 5
      = .ok (false,
             [{ username := "alice",
                hashed_password := .raw (get_hashed_password "pw" 0),
                is_admin := false }],
             some (.errUserExists "alice")) :=
  C5_duplicate_create_conflict
    [{ username := "alice",
       hashed_password := .raw (get_hashed_password "pw" 0),
       is_admin := false }]
    "alice" "other" true 5 none (by decide) (by decide) rfl

/-- C6: an empty username or an empty password makes `add_user_to_db` return
the invalid-input outcome with the table unchanged, and the rejection
happens before any store operation: the result is the same for every value
of the connection and query-error parameters, including an unreachable
store. -/
theorem C6_empty_input_rejected_before_store (connOk : Bool) (qe : Option String)
    (db : List UserRow) (u p : String) (a : Bool) (salt : Nat)
    (h : u = "" ∨ p = "") :
    add_user_to_db connOk qe db u p a salt
      = .ok (false, db, some .errEmptyUserPass) := by
  unfold add_user_to_db
  rw [if_pos h]

theorem C6_empty_input_witness :
    add_user_to_db false none [] "" "secret" false 0
      = .ok (false, [], some .errEmptyUserPass) :=
  C6_empty_input_rejected_before_store false none [] "" "secret" false 0 (Or.inl rfl)

/-- C7: for every password P and salt, verifying P against its own hash
succeeds, and for distinct passwords P1 and P2 verifying P1 against the
hash of P2 fails (the idealised digest of the bcrypt model makes the
overwhelming-probability clause exact). -/
theorem C7_verify_hash (P1 P2 : String) (salt1 salt2 : Nat) :
    check_hashed_password P1 (get_hashed_password P1 salt1) = true
    ∧ (P1 ≠ P2 → check_hashed_password P1 (get_hashed_password P2 salt2) = false) :=
  ⟨check_hashed_password_self P1 salt1,
   fun h => check_hashed_password_other P1 P2 salt2 h⟩

theorem C7_verify_hash_witness :
    check_hashed_password "hunter2" (get_hashed_password "hunter2" 0) = true
    ∧ check_hashed_password "hunter2" (get_hashed_password "wrong" 1) = false := by
  have h := C7_verify_hash "hunter2" "wrong" 0 1
  exact ⟨h.1, h.2 (by decide)⟩

/-- C8: logging out of any authenticated session restores the session
exactly to its initial unauthenticated values: authenticated = false,
username cleared, is_admin cleared. -/
theorem C8_logout_resets_session (s : SessionState) (_h : s.authenticated = true) :
    logout s = initSession := rfl

theorem C8_logout_witness :
    logout { authenticated := true, username := some "admin", is_admin := true }
      = initSession :=
  C8_logout_resets_session
    { authenticated := true, username := some "admin", is_admin := true } rfl

/-- C9: starting from an empty users table with a reachable store, the
controller shows the first-run setup; submitting ("admin", "secret123")
creates the user with is_admin = true; and an immediately following login
with the same credentials authenticates the session with is_admin = true. -/
theorem C9_bootstrap_scenario (salt : Nat) :
    check_password_state true none [] initSession = .ok .uninitializedSetup
    ∧ initial_admin_setup_submit true none [] "admin" "secret123" salt
        = .ok ([{ username := "admin",
                  hashed_password := .raw (get_hashed_password "secret123" salt),
                  is_admin := true }],
               some (.successUserCreated "admin" true))
    ∧ password_entered true none
        [{ username := "admin",
           hashed_password := .raw (get_hashed_password "secret123" salt),
           is_admin := true }]
        initSession "admin" "secret123"
        = .ok ({ authenticated := true, username := some "admin", is_admin := true },
               true) :=
  ⟨rfl, rfl, rfl⟩

/-- C10: whitespace handling is asymmetric.  Both creation paths (first-run
setup and the admin create-user form) strip the password before hashing, so
the stored hash is of the stripped password; the login path strips the
username but passes the password verbatim, so after creating a user with a
password carrying surrounding whitespace, login succeeds with the stripped
form and fails with the originally typed form. -/
theorem C10_whitespace_asymmetry (u p : String) (salt : Nat)
    (hu : pyStrip u = u) (hu0 : u ≠ "")
    (hp : pyStrip p ≠ p) (hp0 : pyStrip p ≠ "") :
    form_add_user_submit true none [] u p false salt
      = .ok ([{ username := u,
                hashed_password := .raw (get_hashed_password (pyStrip p) salt),
                is_admin := false }],
             some (.successUserCreated u false))
    ∧ initial_admin_setup_submit true none [] u p salt
      = .ok ([{ username := u,
                hashed_password := .raw (get_hashed_password (pyStrip p) salt),
                is_admin := true }],
             some (.successUserCreated u true))
    ∧ password_entered true none
        [{ username := u,
           hashed_password := .raw (get_hashed_password (pyStrip p) salt),
           is_admin := false }]
        initSession u (pyStrip p)
      = .ok ({ authenticated := true, username := some u, is_admin := false }, true)
    ∧ password_entered true none
        [{ username := u,
           hashed_password := .raw (get_hashed_password (pyStrip p) salt),
           is_admin := false }]
        initSession u p
      = .ok (initSession, false) := by
  have hver : check_hashed_password p (get_hashed_password (pyStrip p) salt) = false :=
    check_hashed_password_other p (pyStrip p) salt (fun he => hp he.symm)
  refine ⟨?_, ?_, ?_, ?_⟩
  · simp [form_add_user_submit, add_user_to_db, hu, hu0, hp0]
  · simp [initial_admin_setup_submit, add_user_to_db, hu, hu0, hp0]
  · simp [password_entered, get_user_from_db, hu, List.find?, normalizeHashValue,
      check_hashed_password_self]
  · simp [password_entered, get_user_from_db, hu, List.find?, normalizeHashValue,
      hver, initSession]

theorem C10_whitespace_witness :
    form_add_user_submit true none [] "alice" " secret " false 0
      = .ok ([{ username := "alice",
                hashed_password := .raw (get_hashed_password (pyStrip " secret ") 0),
                is_admin := false }],
             some (.successUserCreated "alice" false))
    ∧ initial_admin_setup_submit true none [] "alice" " secret " 0
      = .ok ([{ username := "alice",
                hashed_password := .raw (get_hashed_password (pyStrip " secret ") 0),
                is_admin := true }],
             some (.successUserCreated "alice" true))
    ∧ password_entered true none
        [{ username := "alice",
           hashed_password := .raw (get_hashed_password (pyStrip " secret ") 0),
           is_admin := false }]
        initSession "alice" (pyStrip " secret ")
      = .ok ({ authenticated := true, username := some "alice", is_admin := false },
             true)
    ∧ password_entered true none
        [{ username := "alice",
           hashed_password := .raw (get_hashed_password (pyStrip " secret ") 0),
           is_admin := false }]
        initSession "alice" " secret "
      = .ok (initSession, false) :=
  C10_whitespace_asymmetry "alice" " secret " 0 rfl (by decide) (by decide) (by decide)

end InvitroApp
